import Mathlib

/-!
Shallow embedding of the among-us-bot core (src/src/main.rs) and of its
`Context` collaborator.  The gateway-event dispatch and the command handlers
are translated from `main.rs`.  The `Context` methods live in `context.rs`,
which is not among the sources; each of those definitions is modelled from
the specification and says so in its doc comment.

Identities (users, guilds, messages, channels) are `Nat`.  Sets of member
ids are duplicate-free `List Nat` built with `insertId`.  Outbound HTTP
calls are oracles: a `Bool` per call site telling whether the transport
succeeded; a failed call makes the handler abort the way the `?` operator
does in the Rust source, with all state mutations already applied left in
place.
-/

namespace AmongUsBot

/-- Error taxonomy of the specification (§7). -/
inductive Err where
  | sessionAlreadyActive
  | noActiveSession
  | transportFailure
deriving DecidableEq

/-- The game-session record (spec §3): initiator, guild, optionally bound
control message, dead members, meeting flag. -/
structure GameSession where
  initiator : Nat
  guild : Nat
  controlMessage : Option Nat
  deadMembers : List Nat
  meetingActive : Bool
deriving DecidableEq

/-- Whole-bot state: the single optional session, the set of members muted
by the voice-mute coordinator, the members currently present in voice, and
whether the process has been told to shut down. -/
structure BotState where
  session : Option GameSession
  muted : List Nat
  voiceMembers : List Nat
  shutdown : Bool
deriving DecidableEq

/-- The emergency reaction symbol (main.rs line 21). -/
def EMER_EMOJI : String := "🔴"

/-- The dead reaction symbol (main.rs line 22). -/
def DEAD_EMOJI : String := "💀"

/-- Insert an id into a member set; adding an id twice has no further
effect. -/
def insertId (u : Nat) (l : List Nat) : List Nat :=
  if l.contains u then l else u :: l

/-- Modelled from the spec: `VoiceMuteCoordinator.muteAll` (§4.4) lives in
the crate's `context.rs`, which is not among the sources.  Every member
currently present in voice is server-muted; already-muted members are left
as-is (idempotent); the coordinator tracks the members it muted as a set. -/
def muteAll (st : BotState) : BotState :=
  { st with muted := st.voiceMembers.foldl (fun acc v => insertId v acc) st.muted }

/-- Modelled from the spec: `VoiceMuteCoordinator.unmuteAll` (§4.4) is in
the missing `context.rs`.  Only members this coordinator muted are
unmuted, so the tracked muted set is emptied. -/
def unmuteAll (st : BotState) : BotState :=
  { st with muted := [] }

/-- Modelled from the spec: `Context::is_in_control` is in the missing
`context.rs`.  Per §4.1 `isInControl`: true if the user is the session's
initiator or is an owner; false (not an error) when no session exists,
except that owners always pass regardless of session existence. -/
def is_in_control (owners : List Nat) (st : BotState) (u : Nat) : Bool :=
  (match st.session with
   | some s => u == s.initiator
   | none => false) || owners.contains u

/-- Modelled from the spec: `Context::is_reacting_to_control` is in the
missing `context.rs`.  Per §4.3 `isControlReaction`: true only if the
event's message id equals the active session's bound control message;
false when no session exists or the message is unbound. -/
def is_reacting_to_control (st : BotState) (msgId : Nat) : Bool :=
  match st.session with
  | some s => s.controlMessage == some msgId
  | none => false

/-- Modelled from the spec: `Context::make_dead` is in the missing
`context.rs`.  Per §4.1 `markDead`: silently a no-op when no session
exists; otherwise adds the user to `deadMembers`, idempotently. -/
def make_dead (st : BotState) (u : Nat) : BotState :=
  match st.session with
  | some s => { st with session := some { s with deadMembers := insertId u s.deadMembers } }
  | none => st

/-- Modelled from the spec: `Context::emergency_meeting` is in the missing
`context.rs`.  Per §4.1 `callEmergencyMeeting`: fails with
`NoActiveSession` when no session exists; otherwise sets
`meetingActive = true` and triggers `muteAll`. -/
def emergency_meeting (st : BotState) : Except Err BotState :=
  match st.session with
  | some s => Except.ok (muteAll { st with session := some { s with meetingActive := true } })
  | none => Except.error Err.noActiveSession

/-- Modelled from the spec: `Context::mute_players` is in the missing
`context.rs`.  Per §4.1 `mutePlayers`: unconditionally triggers `muteAll`
for the current voice membership, regardless of the `meetingActive`
flag. -/
def mute_players (st : BotState) : BotState :=
  muteAll st

/-- Modelled from the spec: `Context::start_game` is in the missing
`context.rs`.  Per §4.1 `start`: fails with `SessionAlreadyActive` when a
session exists; otherwise creates a fresh session with empty
`deadMembers` and `meetingActive = false`; the control message the caller
just posted (main.rs line 180 passes it) is bound per §4.1
`bindControlMessage`. -/
def start_game (ctrlMsg author guild : Nat) (st : BotState) : Except Err BotState :=
  match st.session with
  | some _ => Except.error Err.sessionAlreadyActive
  | none =>
    let fresh : GameSession :=
      { initiator := author
        guild := guild
        controlMessage := some ctrlMsg
        deadMembers := []
        meetingActive := false }
    Except.ok { st with session := some fresh }

/-- Modelled from the spec: `Context::end_game` is in the missing
`context.rs`.  Per §4.1 `end`: fails with `NoActiveSession` when no
session exists; otherwise unmutes all currently-muted members and then
clears the session. -/
def end_game (st : BotState) : Except Err BotState :=
  match st.session with
  | some _ => Except.ok { (unmuteAll st) with session := none }
  | none => Except.error Err.noActiveSession

/-- Modelled from the spec: `Context::is_game_in_progress` is in the
missing `context.rs`.  Per §4.1 `isInProgress`. -/
def is_game_in_progress (st : BotState) : Bool :=
  st.session.isSome

/-- Modelled from the spec: `Context::broadcast` is in the missing
`context.rs`.  It yields the active session's broadcast channel, and
nothing when no session exists — the dead-command arm of `main.rs`
(lines 238-250) falls back to the "There is no game running" reply
exactly when it yields nothing, matching §7's distinction between the
permission reply and the no-game reply. -/
def broadcast (st : BotState) : Option Nat :=
  st.session.map (fun s => s.guild)

/-! Gateway reaction dispatch, translated from the event loop of
`main.rs` (lines 90-128). -/

/-- Embeds the `Event::ReactionAdd` arm of the gateway loop
(main.rs lines 103-117): reactions by the bot itself are skipped; on the
bound control message the emergency symbol calls `emergency_meeting`
when the reactor is in control, and the dead symbol calls `make_dead`
with no authorization check; every other symbol is ignored.  The `?` on
`emergency_meeting` can only propagate an error out of the loop without
a state change, so the error branch returns the state unchanged. -/
def handleReactionAdd (owners : List Nat) (currentUser reactor msgId : Nat)
    (emoji : String) (st : BotState) : BotState :=
  if reactor = currentUser then st
  else if is_reacting_to_control st msgId then
    if emoji = EMER_EMOJI then
      if is_in_control owners st reactor then
        match emergency_meeting st with
        | Except.ok st2 => st2
        | Except.error _ => st
      else st
    else if emoji = DEAD_EMOJI then make_dead st reactor
    else st
  else st

/-- Embeds the `Event::ReactionRemove` arm of the gateway loop
(main.rs lines 118-125): when a non-bot user removes the emergency
symbol from the bound control message and is in control, the loop calls
`mute_players`. -/
def handleReactionRemove (owners : List Nat) (currentUser reactor msgId : Nat)
    (emoji : String) (st : BotState) : BotState :=
  if reactor = currentUser then st
  else if emoji = EMER_EMOJI ∧ is_reacting_to_control st msgId = true
      ∧ is_in_control owners st reactor = true then
    mute_players st
  else st

/-! Command handlers, translated from `process_command`
(main.rs lines 133-269).  Each handler returns the bot state after the
handler ran together with what the handler did outwardly. -/

/-- Outcome of one command handler: the state it left behind, the error
the `?` operator propagated (if any), the contents of the messages it
sent, the seconds it slept before muting (for the new-command arm), and
whether it panicked (the `unwrap` in the dead-command arm). -/
structure CmdResult where
  state : BotState
  error : Option Err
  replies : List String
  delay : Option Nat
  panicked : Bool
deriving DecidableEq

/-- A handler outcome with nothing to report beyond the state. -/
def CmdResult.pure (st : BotState) : CmdResult :=
  { state := st, error := none, replies := [], delay := none, panicked := false }

/-- A handler outcome for an aborted handler: the error the `?` operator
propagated, with the state as mutated so far. -/
def CmdResult.fail (st : BotState) (e : Err) : CmdResult :=
  { state := st, error := some e, replies := [], delay := none, panicked := false }

/-- The mention rendering `UserId::mention` produces. -/
def mention (u : Nat) : String := "<@" ++ toString u ++ ">"

/-- The content of the control message posted by the new-command arm
(main.rs lines 147-154). -/
def ctrlMsgContent (author : Nat) : String :=
  "A game is in progress, " ++ mention author ++ " can react to this message with "
    ++ EMER_EMOJI ++ " to call a meeting.\nAnyone can react to this message with "
    ++ DEAD_EMOJI ++ " to access dead chat after the next meeting"

/-- The confirmation reply of the authorized dead-command arm
(main.rs line 222). -/
def deadReply (target : Nat) : String := "deadifying " ++ mention target

/-- The corrective reply of the dead-command arm for a missing or
unparseable mention (main.rs line 234). -/
def mentionErrReply : String := "You must mention the user you wish to die"

/-- The permission reply of the dead-command arm (main.rs lines 241-243). -/
def permReply : String :=
  "You must have started the game or be an owner of the bot to make others dead\nTo make yourself dead, please use the reactions"

/-- The no-session reply of the dead-command arm (main.rs line 248). -/
def noGameReply : String := "There is no game running"

/-- Numeric value of an ASCII digit. -/
def charVal (c : Char) : Nat := c.toNat - 48

/-- Embeds `str::parse::<u64>` as used at main.rs line 183: an optional
leading plus sign, then one or more ASCII digits; anything else, the
empty string, and values above `2 ^ 64 - 1` give `None` (via `.ok()`). -/
def parseU64 (s : String) : Option Nat :=
  let cs := s.data
  let ds := match cs with
    | '+' :: rest => rest
    | _ => cs
  if ds.isEmpty then none
  else if ds.all Char.isDigit then
    let v := ds.foldl (fun acc c => acc * 10 + charVal c) 0
    if v ≤ 2 ^ 64 - 1 then some v else none
  else none

/-- Embeds the duration match of the new-command arm
(main.rs lines 183-187): a parsed `0` means no sleep at all, a parsed
positive value means that many seconds, and a missing or unparseable
argument means the 5-second default. -/
def computeDelay (arg : Option String) : Option Nat :=
  match arg.bind (fun s => parseU64 s) with
  | some t => if t = 0 then none else some t
  | none => some 5

/-- Embeds `twilight_mention` user-id parsing as used at main.rs
line 216: a mention of the form `<@123>` or `<@!123>`. -/
def parseMention (s : String) : Option Nat :=
  let afterOpen := match s.data with
    | '<' :: '@' :: rest => some rest
    | _ => none
  match afterOpen with
  | none => none
  | some rest =>
    match rest.reverse with
    | '>' :: revMid =>
      let mid := match revMid.reverse with
        | '!' :: r => r
        | m => m
      if !mid.isEmpty && mid.all Char.isDigit then
        some (mid.foldl (fun acc c => acc * 10 + charVal c) 0)
      else none
    | _ => none

/-- Embeds the new-command arm of `process_command`
(main.rs lines 135-196).  Transport oracles, in the source's order of
`?` sites: deleting the invoking message, posting the control message,
muting the players, and the spawned reaction-adding task whose result
is awaited last.  The control message is posted before `start_game`
runs, and `start_game`'s result is discarded at the call site
(main.rs lines 180-181), so a `SessionAlreadyActive` failure leaves the
state alone and the handler carries on. -/
def runNew (deleteOk postOk muteOk reactOk : Bool) (arg : Option String)
    (author guild ctrlMsgId : Nat) (st : BotState) : CmdResult :=
  if deleteOk = false then CmdResult.fail st Err.transportFailure
  else if postOk = false then CmdResult.fail st Err.transportFailure
  else
    let sent := [ctrlMsgContent author]
    let st1 := match start_game ctrlMsgId author guild st with
      | Except.ok st2 => st2
      | Except.error _ => st
    let delay := computeDelay arg
    if muteOk = false then
      { state := st1, error := some Err.transportFailure, replies := sent
        delay := delay, panicked := false }
    else
      let st2 := mute_players st1
      if reactOk = false then
        { state := st2, error := some Err.transportFailure, replies := sent
          delay := delay, panicked := false }
      else
        { state := st2, error := none, replies := sent
          delay := delay, panicked := false }

/-- Embeds the end-command arm of `process_command`
(main.rs lines 197-205): delete the invoking message, then `end_game`
when the author is in control. -/
def runEnd (owners : List Nat) (deleteOk : Bool) (author : Nat)
    (st : BotState) : CmdResult :=
  if deleteOk = false then CmdResult.fail st Err.transportFailure
  else if is_in_control owners st author then
    match end_game st with
    | Except.ok st1 => CmdResult.pure st1
    | Except.error e => CmdResult.fail st e
  else CmdResult.pure st

/-- Embeds the dead-command arm of `process_command`
(main.rs lines 206-251).  When the author is in control, both inner
branches call `ctx.broadcast().await.unwrap()`: with no active session
`broadcast` yields nothing and the `unwrap` panics.  When the author is
not in control, the arm replies with the permission message on the
broadcast channel when one exists and with the no-game message
otherwise. -/
def runDead (owners : List Nat) (deleteOk sendOk replyDeleteOk : Bool)
    (arg : Option String) (author : Nat) (st : BotState) : CmdResult :=
  if deleteOk = false then CmdResult.fail st Err.transportFailure
  else if is_in_control owners st author then
    match arg.map parseMention with
    | some (some target) =>
      match broadcast st with
      | none => { CmdResult.pure st with panicked := true }
      | some _ =>
        if sendOk = false then CmdResult.fail st Err.transportFailure
        else
          let st1 := make_dead st target
          if replyDeleteOk = false then
            { state := st1, error := some Err.transportFailure
              replies := [deadReply target], delay := some 5, panicked := false }
          else
            { state := st1, error := none
              replies := [deadReply target], delay := some 5, panicked := false }
    | _ =>
      match broadcast st with
      | none => { CmdResult.pure st with panicked := true }
      | some _ =>
        if sendOk = false then CmdResult.fail st Err.transportFailure
        else
          { state := st, error := none, replies := [mentionErrReply]
            delay := none, panicked := false }
  else
    match broadcast st with
    | some _ =>
      if sendOk = false then CmdResult.fail st Err.transportFailure
      else
        { state := st, error := none, replies := [permReply]
          delay := none, panicked := false }
    | none =>
      if sendOk = false then CmdResult.fail st Err.transportFailure
      else
        { state := st, error := none, replies := [noGameReply]
          delay := none, panicked := false }

/-- Embeds the stop-command arm of `process_command`
(main.rs lines 252-264): delete the invoking message; when the author
is in control, end the game if one is in progress, then shut the shard
down. -/
def runStop (owners : List Nat) (deleteOk : Bool) (author : Nat)
    (st : BotState) : CmdResult :=
  if deleteOk = false then CmdResult.fail st Err.transportFailure
  else if is_in_control owners st author then
    if is_game_in_progress st then
      match end_game st with
      | Except.ok st1 => CmdResult.pure { st1 with shutdown := true }
      | Except.error e => CmdResult.fail st e
    else CmdResult.pure { st with shutdown := true }
  else CmdResult.pure st

/-! Session-lifecycle operations as a sequence, for the single-session
invariant. -/

/-- One session-lifecycle operation: a `start` (the new-command path) or
an `end` (the end/stop-command path). -/
inductive SessOp where
  | start (ctrlMsg author guild : Nat)
  | finish
deriving DecidableEq

/-- Apply one lifecycle operation; a failing operation (its `Except`
error) leaves the state unchanged. -/
def applyOp (st : BotState) (op : SessOp) : BotState :=
  match op with
  | SessOp.start m a g =>
    match start_game m a g st with
    | Except.ok st1 => st1
    | Except.error _ => st
  | SessOp.finish =>
    match end_game st with
    | Except.ok st1 => st1
    | Except.error _ => st

/-- Apply a sequence of lifecycle operations in order. -/
def applySeq (ops : List SessOp) (st : BotState) : BotState :=
  ops.foldl applyOp st

/-- How many sessions exist: the state holds a single optional session. -/
def sessionCount (st : BotState) : Nat :=
  if st.session.isSome then 1 else 0

/-! Helper lemmas about member sets. -/

theorem contains_insertId_self (u : Nat) (l : List Nat) :
    (insertId u l).contains u = true := by
  unfold insertId
  split
  · assumption
  · simp

theorem contains_insertId_mono (u v : Nat) (l : List Nat) (h : l.contains v = true) :
    (insertId u l).contains v = true := by
  unfold insertId
  split
  · exact h
  · simp only [List.contains_cons, h, Bool.or_true]

theorem contains_foldl_insertId_acc (l : List Nat) (acc : List Nat) (v : Nat)
    (h : acc.contains v = true) :
    (l.foldl (fun a x => insertId x a) acc).contains v = true := by
  induction l generalizing acc with
  | nil => simpa using h
  | cons x xs ih => exact ih (insertId x acc) (contains_insertId_mono x v acc h)

theorem contains_foldl_insertId_mem (l acc : List Nat) (v : Nat)
    (h : l.contains v = true) :
    (l.foldl (fun a x => insertId x a) acc).contains v = true := by
  induction l generalizing acc with
  | nil => simp at h
  | cons x xs ih =>
    rw [List.foldl_cons]
    by_cases hvx : v = x
    · subst hvx
      exact contains_foldl_insertId_acc xs (insertId v acc) v (contains_insertId_self v acc)
    · apply ih
      simpa [List.contains_cons, hvx] using h

/-! Claim theorems. -/

/-- Concrete fixture for C1: an active session with the meeting flag set,
control message 10, initiator 1, one member muted, two in voice. -/
def c1Session : GameSession :=
  { initiator := 1, guild := 4, controlMessage := some 10
    deadMembers := [], meetingActive := true }

/-- Concrete bot state for C1. -/
def c1State : BotState :=
  { session := some c1Session, muted := [5], voiceMembers := [5, 6], shutdown := false }

/-- C1 (counterexample): at a concrete state with an active session and a
muted member, the initiator removing the emergency symbol from the bound
control message does not set `meetingActive` to false with every
coordinator-muted member unmuted — the handler calls `mute_players`
instead. -/
theorem c1_remove_claim_refuted :
    ¬ ((handleReactionRemove [] 99 1 10 EMER_EMOJI c1State).session.map GameSession.meetingActive
          = some false
        ∧ (handleReactionRemove [] 99 1 10 EMER_EMOJI c1State).muted = []) := by decide

/-- C1 (amended): every removal of the emergency symbol from the bound
control message by a non-bot user in control while a session is active
triggers `mute_players` — `muteAll` over the current voice membership —
leaving the session, including `meetingActive`, unchanged. -/
theorem c1_remove_triggers_mute (owners : List Nat) (currentUser reactor msgId : Nat)
    (st : BotState) (s : GameSession)
    (hs : st.session = some s) (hm : s.controlMessage = some msgId)
    (hc : is_in_control owners st reactor = true) (hb : reactor ≠ currentUser) :
    handleReactionRemove owners currentUser reactor msgId EMER_EMOJI st = mute_players st
    ∧ (mute_players st).session = st.session := by
  constructor
  · unfold handleReactionRemove
    rw [if_neg hb, if_pos]
    exact ⟨rfl, by simp [is_reacting_to_control, hs, hm], hc⟩
  · simp [mute_players, muteAll]

/-- Witness for `c1_remove_triggers_mute` at the concrete C1 state. -/
theorem c1_remove_witness :
    handleReactionRemove [] 99 1 10 EMER_EMOJI c1State = mute_players c1State
    ∧ (mute_players c1State).session = c1State.session :=
  c1_remove_triggers_mute [] 99 1 10 c1State c1Session rfl rfl (by decide) (by decide)

/-- Concrete fixture for C2: no session, nobody in voice. -/
def c2State : BotState :=
  { session := none, muted := [], voiceMembers := [], shutdown := false }

/-- C2 (counterexample): starting from no session, the new-command arm
with a transport failure at the control-message post aborts with
`TransportFailure`, yet no game session exists afterwards — contradicting
the claim that the session exists even though its control message failed
to post. -/
theorem c2_claim_refuted :
    (runNew true false true true (some "0") 1 4 10 c2State).error = some Err.transportFailure
    ∧ ¬ ((runNew true false true true (some "0") 1 4 10 c2State).state.session.isSome
          = true) := by decide

/-- C2 (amended): a transport failure posting the control message aborts
the new-command arm with `TransportFailure` and the state exactly as
already committed — the session is created only after the post succeeds,
so nothing was committed and no session exists; by contrast a transport
failure at the later muting step leaves the created session in place. -/
theorem c2_post_failure_aborts (muteOk reactOk : Bool) (arg : Option String)
    (author guild cm : Nat) (st : BotState) (hs : st.session = none) :
    (runNew true false muteOk reactOk arg author guild cm st).error = some Err.transportFailure
    ∧ (runNew true false muteOk reactOk arg author guild cm st).state = st
    ∧ (runNew true true false reactOk arg author guild cm st).error = some Err.transportFailure
    ∧ ((runNew true true false reactOk arg author guild cm st).state.session).isSome = true := by
  refine ⟨?_, ?_, ?_, ?_⟩ <;> simp [runNew, CmdResult.fail, start_game, hs]

/-- Witness for `c2_post_failure_aborts` at the concrete C2 state. -/
theorem c2_witness :
    (runNew true false true true none 1 4 10 c2State).error = some Err.transportFailure
    ∧ (runNew true false true true none 1 4 10 c2State).state = c2State
    ∧ (runNew true true false true none 1 4 10 c2State).error = some Err.transportFailure
    ∧ ((runNew true true false true none 1 4 10 c2State).state.session).isSome = true :=
  c2_post_failure_aborts true true none 1 4 10 c2State rfl

/-- Concrete fixture for C3: no session; user 7 is an owner. -/
def c3State : BotState :=
  { session := none, muted := [], voiceMembers := [], shutdown := false }

/-- C3 (the code evaluated at the failing input): owner 7 issues the dead
command with a valid mention while no session is active; `is_in_control`
passes (owners pass regardless of session), the broadcast channel is
absent, and the `unwrap` at main.rs line 221 panics — instead of the
silent no-op the claim states. -/
theorem c3_owner_no_session_panics :
    (runDead [7] true true true (some "<@2>") 7 c3State).panicked = true := by decide

/-- C4: for every sequence of lifecycle operations at most one session
exists at any instant; while a session is active a further `start_game`
fails with `SessionAlreadyActive`, and the new-command arm — which
discards that error (main.rs lines 180-181) — neither creates a second
session nor replaces the existing one. -/
theorem c4_single_session (ops : List SessOp) (st : BotState) (s : GameSession)
    (m a g cm : Nat) (arg : Option String) (hs : st.session = some s) :
    sessionCount (applySeq ops st) ≤ 1
    ∧ start_game m a g st = Except.error Err.sessionAlreadyActive
    ∧ (runNew true true true true arg a g cm st).state.session = some s := by
  refine ⟨?_, ?_, ?_⟩
  · unfold sessionCount
    split <;> simp
  · simp [start_game, hs]
  · simp [runNew, start_game, hs, mute_players, muteAll]

/-- Concrete fixture for C4: an active session started by user 1. -/
def c4Session : GameSession :=
  { initiator := 1, guild := 4, controlMessage := some 10
    deadMembers := [], meetingActive := false }

/-- Concrete bot state for C4. -/
def c4State : BotState :=
  { session := some c4Session, muted := [], voiceMembers := [], shutdown := false }

/-- Witness for `c4_single_session`: user 2 starts over user 1's active
session. -/
theorem c4_witness :
    sessionCount (applySeq [SessOp.start 11 2 4] c4State) ≤ 1
    ∧ start_game 11 2 4 c4State = Except.error Err.sessionAlreadyActive
    ∧ (runNew true true true true none 2 4 11 c4State).state.session = some c4Session :=
  c4_single_session [SessOp.start 11 2 4] c4State c4Session 11 2 4 11 none rfl

/-- C5: on the bound control message, the dead symbol marks the reacting
user dead with no authorization check — here a reactor who is neither the
initiator nor an owner — while the emergency symbol added by that same
reactor is rejected and leaves the whole state, so in particular
`meetingActive`, unchanged. -/
theorem c5_dead_selfservice_emergency_gated (owners : List Nat)
    (currentUser b msgId : Nat) (st : BotState) (s : GameSession)
    (hs : st.session = some s) (hm : s.controlMessage = some msgId)
    (hb : b ≠ currentUser) (hinit : b ≠ s.initiator)
    (hown : owners.contains b = false) :
    (handleReactionAdd owners currentUser b msgId DEAD_EMOJI st).session
        = some { s with deadMembers := insertId b s.deadMembers }
    ∧ handleReactionAdd owners currentUser b msgId EMER_EMOJI st = st := by
  have hde : DEAD_EMOJI ≠ EMER_EMOJI := by decide
  have hctl : is_reacting_to_control st msgId = true := by
    simp [is_reacting_to_control, hs, hm]
  have hbeq : (b == s.initiator) = false := by
    simp [hinit]
  have hmem : b ∉ owners := by simpa using hown
  have hnic : ¬ (is_in_control owners st b = true) := by
    simp [is_in_control, hs, hbeq, hmem]
  constructor
  · unfold handleReactionAdd
    rw [if_neg hb, if_pos hctl, if_neg hde, if_pos rfl]
    simp [make_dead, hs]
  · unfold handleReactionAdd
    rw [if_neg hb, if_pos hctl, if_pos rfl, if_neg hnic]

/-- Concrete fixture for C5: an active session started by user 1 with
control message 10; user 2 is neither initiator nor owner. -/
def c5Session : GameSession :=
  { initiator := 1, guild := 4, controlMessage := some 10
    deadMembers := [], meetingActive := false }

/-- Concrete bot state for C5. -/
def c5State : BotState :=
  { session := some c5Session, muted := [], voiceMembers := [3], shutdown := false }

/-- Witness for `c5_dead_selfservice_emergency_gated` with reactor 2. -/
theorem c5_witness :
    (handleReactionAdd [] 99 2 10 DEAD_EMOJI c5State).session
        = some { c5Session with deadMembers := insertId 2 c5Session.deadMembers }
    ∧ handleReactionAdd [] 99 2 10 EMER_EMOJI c5State = c5State :=
  c5_dead_selfservice_emergency_gated [] 99 2 10 c5State c5Session rfl rfl
    (by decide) (by decide) (by decide)

/-- C6: a reaction event — add or remove, any symbol, any reactor — whose
message id does not match the bound control message of the active session
(in particular when no session exists or no control message is bound, so
`is_reacting_to_control` is false) leaves the whole bot state, and hence
all session state, unchanged. -/
theorem c6_nonmatching_reaction_noop (owners : List Nat)
    (currentUser reactor msgId : Nat) (emoji : String) (st : BotState)
    (h : is_reacting_to_control st msgId = false) :
    handleReactionAdd owners currentUser reactor msgId emoji st = st
    ∧ handleReactionRemove owners currentUser reactor msgId emoji st = st := by
  constructor
  · unfold handleReactionAdd
    by_cases hb : reactor = currentUser
    · rw [if_pos hb]
    · rw [if_neg hb, if_neg (by simp [h])]
  · unfold handleReactionRemove
    by_cases hb : reactor = currentUser
    · rw [if_pos hb]
    · rw [if_neg hb, if_neg (fun hc => by simp [h] at hc)]

/-- Witness for `c6_nonmatching_reaction_noop`: a session is active with
control message 10, but the reaction targets message 3. -/
theorem c6_witness :
    handleReactionAdd [] 99 1 3 EMER_EMOJI
      { session := some { initiator := 1, guild := 4, controlMessage := some 10
                          deadMembers := [], meetingActive := false }
        muted := [], voiceMembers := [5], shutdown := false }
      = { session := some { initiator := 1, guild := 4, controlMessage := some 10
                            deadMembers := [], meetingActive := false }
          muted := [], voiceMembers := [5], shutdown := false }
    ∧ handleReactionRemove [] 99 1 3 EMER_EMOJI
      { session := some { initiator := 1, guild := 4, controlMessage := some 10
                          deadMembers := [], meetingActive := false }
        muted := [], voiceMembers := [5], shutdown := false }
      = { session := some { initiator := 1, guild := 4, controlMessage := some 10
                            deadMembers := [], meetingActive := false }
          muted := [], voiceMembers := [5], shutdown := false } :=
  c6_nonmatching_reaction_noop [] 99 1 3 EMER_EMOJI
    { session := some { initiator := 1, guild := 4, controlMessage := some 10
                        deadMembers := [], meetingActive := false }
      muted := [], voiceMembers := [5], shutdown := false }
    (by decide)

/-- C7: the new-command arm sleeps `computeDelay` seconds before muting:
5 with no argument, no sleep at all when the argument parses to `0`, and
`n` when the argument parses to a positive `n`; in each case every member
currently in voice ends up muted. -/
theorem c7_new_delay (arg : Option String) (author guild cm : Nat) (st : BotState) :
    (arg = none → (runNew true true true true arg author guild cm st).delay = some 5)
    ∧ (∀ s, arg = some s → parseU64 s = some 0 →
        (runNew true true true true arg author guild cm st).delay = none)
    ∧ (∀ s n, arg = some s → parseU64 s = some n → n ≠ 0 →
        (runNew true true true true arg author guild cm st).delay = some n)
    ∧ (∀ v, st.voiceMembers.contains v = true →
        ((runNew true true true true arg author guild cm st).state.muted).contains v
          = true) := by
  have hdel : (runNew true true true true arg author guild cm st).delay
      = computeDelay arg := by
    simp [runNew]
  refine ⟨?_, ?_, ?_, ?_⟩
  · intro ha
    rw [hdel, ha]
    simp [computeDelay]
  · intro s ha hp
    rw [hdel, ha]
    simp [computeDelay, hp]
  · intro s n ha hp hn
    rw [hdel, ha]
    simp [computeDelay, hp, hn]
  · intro v hv
    cases hsess : st.session with
    | none =>
      simp only [runNew, start_game, hsess, mute_players, muteAll]
      simpa using contains_foldl_insertId_mem st.voiceMembers st.muted v hv
    | some s =>
      simp only [runNew, start_game, hsess, mute_players, muteAll]
      simpa using contains_foldl_insertId_mem st.voiceMembers st.muted v hv

/-- Concrete fixture for C7: no session, one member in voice. -/
def c7State : BotState :=
  { session := none, muted := [], voiceMembers := [5], shutdown := false }

/-- Witness for `c7_new_delay` with the argument `3`. -/
theorem c7_witness :
    (runNew true true true true (some "3") 1 4 10 c7State).delay = some 3
    ∧ ((runNew true true true true (some "3") 1 4 10 c7State).state.muted).contains 5
        = true := by
  have h := c7_new_delay (some "3") 1 4 10 c7State
  exact ⟨h.2.2.1 "3" 3 rfl (by decide) (by decide), h.2.2.2 5 (by decide)⟩

/-- C8: a dead command by an author who is neither the initiator nor an
owner while a session is active gets the permission reply with the state
— in particular `deadMembers` — unchanged and no panic; with no session
the same author instead gets the no-game reply; the two replies are
distinct. -/
theorem c8_dead_unauthorized (owners : List Nat) (author : Nat) (arg : Option String)
    (st : BotState) (hown : owners.contains author = false) :
    (∀ s, st.session = some s → author ≠ s.initiator →
      (runDead owners true true true arg author st).replies = [permReply]
      ∧ (runDead owners true true true arg author st).state = st
      ∧ (runDead owners true true true arg author st).panicked = false)
    ∧ (st.session = none →
      (runDead owners true true true arg author st).replies = [noGameReply]
      ∧ (runDead owners true true true arg author st).state = st)
    ∧ permReply ≠ noGameReply := by
  have hmem : author ∉ owners := by simpa using hown
  refine ⟨?_, ?_, by decide⟩
  · intro s hs hinit
    have hbeq : (author == s.initiator) = false := by simp [hinit]
    have hnic : ¬ (is_in_control owners st author = true) := by
      simp [is_in_control, hs, hbeq, hmem]
    unfold runDead
    rw [if_neg (by simp), if_neg hnic]
    simp [broadcast, hs]
  · intro hs
    have hnic : ¬ (is_in_control owners st author = true) := by
      simp [is_in_control, hs, hmem]
    unfold runDead
    rw [if_neg (by simp), if_neg hnic]
    simp [broadcast, hs]

/-- Concrete fixture for C8: an active session started by user 1. -/
def c8Session : GameSession :=
  { initiator := 1, guild := 4, controlMessage := some 10
    deadMembers := [], meetingActive := false }

/-- Concrete bot state for C8 while the session is active. -/
def c8State : BotState :=
  { session := some c8Session, muted := [], voiceMembers := [], shutdown := false }

/-- Concrete bot state for C8 with no session. -/
def c8EmptyState : BotState :=
  { session := none, muted := [], voiceMembers := [], shutdown := false }

/-- Witness for `c8_dead_unauthorized`: user 3 (neither initiator nor
owner) issues the dead command in both scenarios. -/
theorem c8_witness :
    (runDead [] true true true (some "<@5>") 3 c8State).replies = [permReply]
    ∧ (runDead [] true true true (some "<@5>") 3 c8State).state = c8State
    ∧ (runDead [] true true true (some "<@5>") 3 c8EmptyState).replies = [noGameReply] := by
  have h1 := c8_dead_unauthorized [] 3 (some "<@5>") c8State (by decide)
  have h2 := c8_dead_unauthorized [] 3 (some "<@5>") c8EmptyState (by decide)
  exact ⟨(h1.1 c8Session rfl (by decide)).1, (h1.1 c8Session rfl (by decide)).2.1,
    (h2.2.1 rfl).1⟩

/-- C9: a stop command by a user in control while a session is active
with `meetingActive = true` ends with every coordinator-muted member
unmuted, the session destroyed, and the shutdown flag set; issued with no
session by an owner it still sets the shutdown flag without ending any
session. -/
theorem c9_stop (owners : List Nat) (author : Nat) (st : BotState) :
    (∀ s, st.session = some s → s.meetingActive = true →
      is_in_control owners st author = true →
      (runStop owners true author st).state.muted = []
      ∧ (runStop owners true author st).state.session = none
      ∧ (runStop owners true author st).state.shutdown = true)
    ∧ (st.session = none → owners.contains author = true →
      (runStop owners true author st).state.shutdown = true
      ∧ (runStop owners true author st).state.session = none) := by
  constructor
  · intro s hs _ hc
    unfold runStop
    rw [if_neg (by simp), if_pos hc]
    simp [is_game_in_progress, hs, end_game, unmuteAll, CmdResult.pure]
  · intro hs hown
    have hmem : author ∈ owners := by simpa using hown
    have hc : is_in_control owners st author = true := by
      simp [is_in_control, hs, hmem]
    unfold runStop
    rw [if_neg (by simp), if_pos hc]
    simp [is_game_in_progress, hs, CmdResult.pure]

/-- Concrete fixture for C9: an active session started by user 1 with the
meeting flag set and two muted members. -/
def c9State : BotState :=
  { session := some { initiator := 1, guild := 4, controlMessage := some 10
                      deadMembers := [], meetingActive := true }
    muted := [5, 6], voiceMembers := [5, 6], shutdown := false }

/-- Concrete bot state for C9 with no session; user 7 is an owner. -/
def c9EmptyState : BotState :=
  { session := none, muted := [], voiceMembers := [], shutdown := false }

/-- Witness for `c9_stop`: initiator 1 stops the active meeting, and
owner 7 stops with no session. -/
theorem c9_witness :
    (runStop [] true 1 c9State).state.muted = []
    ∧ (runStop [] true 1 c9State).state.session = none
    ∧ (runStop [] true 1 c9State).state.shutdown = true
    ∧ (runStop [7] true 7 c9EmptyState).state.shutdown = true
    ∧ (runStop [7] true 7 c9EmptyState).state.session = none := by
  have h1 := c9_stop [] 1 c9State
  have h2 := c9_stop [7] 7 c9EmptyState
  have ha := h1.1 { initiator := 1, guild := 4, controlMessage := some 10
                    deadMembers := [], meetingActive := true } rfl rfl (by decide)
  have hb := h2.2 rfl (by decide)
  exact ⟨ha.1, ha.2.1, ha.2.2, hb.1, hb.2⟩

/-- C10: a new command whose argument does not parse as a non-negative
integer is not rejected as malformed: no error is propagated, the only
message sent is the control message itself (no corrective reply), and the
default 5-second delay is applied before muting. -/
theorem c10_new_unparseable_arg (s : String) (author guild cm : Nat) (st : BotState)
    (h : parseU64 s = none) :
    (runNew true true true true (some s) author guild cm st).error = none
    ∧ (runNew true true true true (some s) author guild cm st).delay = some 5
    ∧ (runNew true true true true (some s) author guild cm st).replies
        = [ctrlMsgContent author] := by
  refine ⟨?_, ?_, ?_⟩ <;> simp [runNew, computeDelay, h]

/-- Concrete fixture for C10: no session. -/
def c10State : BotState :=
  { session := none, muted := [], voiceMembers := [], shutdown := false }

/-- Witness for `c10_new_unparseable_arg` with the argument `abc`. -/
theorem c10_witness :
    (runNew true true true true (some "abc") 1 4 10 c10State).error = none
    ∧ (runNew true true true true (some "abc") 1 4 10 c10State).delay = some 5
    ∧ (runNew true true true true (some "abc") 1 4 10 c10State).replies
        = [ctrlMsgContent 1] :=
  c10_new_unparseable_arg "abc" 1 4 10 c10State (by decide)

end AmongUsBot
